import Mathlib

/-!
Verification development for the `solar` risk-estimation pipeline.

We shallowly embed the quantitative core of the repository in Lean:
floating-point numbers are modelled as rationals (`ℚ`), numpy array
operations as `List` operations, and transcendental library functions
(`np.exp`, `scipy.stats.gamma.ppf`) as explicit function parameters,
since the structural claims under scrutiny hold for every choice of
those functions.  Division by zero in `ℚ` yields `0` (Lean convention);
every place where IEEE semantics would instead produce `inf`/`nan` is
noted at the definition site.
-/

namespace Solar

/-! ## Payout engine (`solar/payouts.py`) -/

/-- Embedding of `expected_loss` from `solar/payouts.py`:
`payout = np.clip(strike - values, 0.0, strike - exit) * ppa`;
`return float(np.minimum(payout, limit).mean())`.
`np.clip(x, lo, hi) = minimum(maximum(x, lo), hi)`; the mean of an
empty array (nan in numpy) is modelled as `0` via division by zero. -/
def expected_loss (values : List ℚ) (strike exitv ppa limit : ℚ) : ℚ :=
  let payout := values.map (fun v => min (max (strike - v) 0) (strike - exitv) * ppa)
  (payout.map (fun p => min p limit)).sum / payout.length

/-! ## Sorting

Ascending stable insertion sort, modelling `np.sort` / `sort_values`
(the pipeline only depends on the output being sorted; insertion sort
is structurally recursive, hence evaluable by the kernel). -/

/-- Insert an element into an already ascending list (by `le`). -/
def insertBy {α : Type} (le : α → α → Bool) (a : α) : List α → List α
  | [] => [a]
  | b :: bs => if le a b then a :: b :: bs else b :: insertBy le a bs

/-- Sort a list ascending by `le` (stable insertion sort). -/
def sortBy {α : Type} (le : α → α → Bool) (l : List α) : List α :=
  l.foldr (insertBy le) []

/-- Ascending sort of rationals, embedding `np.sort`. -/
def npSort (l : List ℚ) : List ℚ := sortBy (fun a b => decide (a ≤ b)) l

/-! ## Gamma model (`build/lib/solar/gamma_model.py`) -/

/-- Sample mean, embedding `values.mean()`. -/
def npMean (values : List ℚ) : ℚ := values.sum / values.length

/-- Bessel-corrected sample variance, embedding `values.std(ddof=1) ** 2`
(the square of the standard deviation; the code only ever uses the std
through `(mean/std)**2` and `std**2`, both rational in the input). -/
def sampleVar (values : List ℚ) : ℚ :=
  (values.map (fun v => (v - npMean values) ^ 2)).sum / ((values.length : ℚ) - 1)

/-- Embedding of `calculate_gamma_parameters` from
`build/lib/solar/gamma_model.py`:
`shape = (mean / std) ** 2`; `scale = (std ** 2) / mean`, with no guard
of any kind.  Since `(mean/std)^2 = mean^2 / std^2` and `std^2` is the
Bessel-corrected variance, the pair is expressed through `sampleVar`.
For a constant series numpy emits `inf` for the shape (division of a
nonzero float by zero); the `ℚ` embedding yields `0` there. -/
def calculate_gamma_parameters (values : List ℚ) : ℚ × ℚ :=
  let mean := npMean values
  let var := sampleVar values
  (mean ^ 2 / var, var / mean)

/-- Embedding of `excel_style_percentiles` from
`build/lib/solar/gamma_model.py`: sort ascending once, then for each `p`
take `rank = int(np.ceil(p * n))` clamped to `[1, n]` and return the
element at index `rank - 1`.  `int(np.ceil(z))` equals `⌈z⌉` for every
float `z`.  Out-of-range indexing (possible only for `n = 0`, where the
source raises) is totalised with a default of `0`. -/
def excel_style_percentiles (values percentiles : List ℚ) : List ℚ :=
  let sorted_vals := npSort values
  let n := values.length
  percentiles.map (fun p =>
    let rank : ℤ := min (max ⌈p * (n : ℚ)⌉ 1) (n : ℤ)
    sorted_vals.getD (rank - 1).toNat 0)

/-- Definition following the spec text for `excel_percentile`: for each
probability, rank = ceil(p × n) clamped to [1, n], return the rank-th
smallest value (1-indexed nearest-rank over the ascending sort). -/
def excel_percentile_spec (values percentiles : List ℚ) : List ℚ :=
  percentiles.map (fun p =>
    let rank : ℤ := min (max ⌈p * (values.length : ℚ)⌉ 1) (values.length : ℤ)
    (npSort values).getD (rank - 1).toNat 0)

/-- Embedding of `apply_exponential_blow` from
`build/lib/solar/gamma_model.py`.  `np.exp` is abstracted as the
parameter `expf` (the claims proved below hold for every function in
its place): direction `'D'` rewrites values below the pivot, `'U'`
values above it, any other string leaves the values alone, and `shift`
is added to every element afterwards. -/
def apply_exponential_blow (expf : ℚ → ℚ) (values : List ℚ)
    (blow_point blow_factor : ℚ) (blow_dir : String) (shift : ℚ) : List ℚ :=
  let blown :=
    if blow_dir = "D" then
      values.map (fun v =>
        if v < blow_point then blow_point - (blow_point - v) * expf (-blow_factor / 100) else v)
    else if blow_dir = "U" then
      values.map (fun v =>
        if v > blow_point then blow_point + (v - blow_point) * expf (-blow_factor / 100) else v)
    else
      values
  blown.map (fun v => v + shift)

/-! ## Sobol simulation driver (`solar_backup_20250916_115411/sobol_sim.py`) -/

/-- Embedding of `sobol_sim`.  The CSV read and the NaN drop are I/O
performed by pandas; `nums` models the parsed first column.  The inverse
gamma CDF `scipy.stats.gamma.ppf` is abstracted as the parameter `ppf`
applied to shape, scale and the quasi-random value.  The source checks
`((sobol_numbers >= 0) & (sobol_numbers <= 1)).all()` and raises a
`ValueError` before any gamma mapping when it fails. -/
def sobol_sim (ppf : ℚ → ℚ → ℚ → ℚ) (shape scale : ℚ) (nums : List ℚ) :
    Except String (List ℚ) :=
  if nums.all (fun x => decide (0 ≤ x) && decide (x ≤ 1)) then
    Except.ok (nums.map (ppf shape scale))
  else
    Except.error "Sobol CSV must contain values between 0 and 1."

/-! ## Detrending (`solar/detrending.py`) -/

/-- One row of `sklearn.metrics.pairwise.rbf_kernel(X, X, gamma)` with
`gamma = 1 / (2 * bw ** 2)`: entry `j` is `exp(-gamma * (xi - xj)^2)`.
`np.exp` is abstracted as `expf`. -/
def rbfRow (expf : ℚ → ℚ) (bw : ℚ) (x : List ℚ) (xi : ℚ) : List ℚ :=
  x.map (fun xj => expf (-(1 / (2 * bw ^ 2)) * (xi - xj) ^ 2))

/-- One smoothed value: the row-normalised weighted average
`(w / w.sum) ⬝ y = (Σ wⱼ yⱼ) / Σ wⱼ` used by `w @ y` after
`w = w / w.sum(axis=1, keepdims=True)`.  A zero row sum divides by zero
(`0` in ℚ; impossible with the real `exp`, which is positive). -/
def smoothedAt (expf : ℚ → ℚ) (bw : ℚ) (x y : List ℚ) (xi : ℚ) : ℚ :=
  let w := rbfRow expf bw x xi
  (List.zipWith (fun wj yj => wj * yj) w y).sum / w.sum

/-- Embedding of `gaussian_detrend` from `solar/detrending.py`: empty
input returns empty output; otherwise smooth through the row-normalised
RBF weights, anchor at the last smoothed value, and return
`(smoothed, anchor + (y - smoothed))`. -/
def gaussian_detrend (expf : ℚ → ℚ) (x y : List ℚ) (bw : ℚ) : List ℚ × List ℚ :=
  if x.isEmpty || y.isEmpty then ([], [])
  else
    let smoothed := x.map (smoothedAt expf bw x y)
    let anchor := smoothed.getLast?.getD 0
    (smoothed, List.zipWith (fun yi si => anchor + (yi - si)) y smoothed)

/-- Embedding of `linear_detrend` from `solar/detrending.py`:
`scipy.stats.linregress` ordinary least squares
(`slope = Σ(x-x̄)(y-ȳ) / Σ(x-x̄)²`, `intercept = ȳ - slope·x̄`), anchor
at the fitted value of the last `x`, and
`detrended = anchor + (y - (x·slope + intercept))`. -/
def linear_detrend (x y : List ℚ) : List ℚ :=
  if x.isEmpty || y.isEmpty then []
  else
    let xbar := x.sum / x.length
    let ybar := y.sum / y.length
    let slope := (List.zipWith (fun a b => (a - xbar) * (b - ybar)) x y).sum
      / (x.map (fun a => (a - xbar) ^ 2)).sum
    let intercept := ybar - slope * xbar
    let anchor := x.getLast?.getD 0 * slope + intercept
    List.zipWith (fun xi yi => anchor + (yi - (xi * slope + intercept))) x y

/-! ## Calendar model

The annual-energy windowing of `solar/data_processing.py` works with
`pd.Timestamp` values.  We model a timestamp as a Gregorian calendar
date plus a rational fraction of a day, and linearise it to a rational
day number (proleptic, counted from year 0); only differences and the
order of day numbers matter for the embedded code. -/

/-- Gregorian leap-year test. -/
def isLeapYear (y : ℕ) : Bool := (y % 4 == 0 && y % 100 != 0) || (y % 400 == 0)

/-- Days in the years `0, …, y-1`: 365 per year plus one per leap year
strictly below `y` (`(y+3)/4` counts the multiples of 4 in `[0, y-1]`,
and likewise for 100 and 400). -/
def daysSinceYear0 (y : ℕ) : ℕ :=
  365 * y + ((y + 3) / 4 - (y + 99) / 100 + (y + 399) / 400)

/-- Days in year `y` strictly before month `m` (for months `1..12`). -/
def daysBeforeMonth (y m : ℕ) : ℕ :=
  let feb := if isLeapYear y then 29 else 28
  match m with
  | 1 => 0
  | 2 => 31
  | 3 => 31 + feb
  | 4 => 62 + feb
  | 5 => 92 + feb
  | 6 => 123 + feb
  | 7 => 153 + feb
  | 8 => 184 + feb
  | 9 => 215 + feb
  | 10 => 245 + feb
  | 11 => 276 + feb
  | _ => 306 + feb

/-- Absolute day number of the calendar date `y-m-d` (midnight). -/
def toDays (y m d : ℕ) : ℕ := daysSinceYear0 y + daysBeforeMonth y m + (d - 1)

/-- Model of a `pd.Timestamp`: calendar date plus time of day as a
fraction of a day. -/
structure Timestamp where
  year : ℕ
  month : ℕ
  day : ℕ
  frac : ℚ
deriving DecidableEq

/-- Linearisation of a timestamp to a rational day number; timestamp
comparisons in the source are comparisons of these values. -/
def Timestamp.toQ (t : Timestamp) : ℚ := (toDays t.year t.month t.day : ℚ) + t.frac

/-- One row of the hourly frame: parsed `Date` and `Hourly_Energy_kWh`. -/
structure HourlyRec where
  date : Timestamp
  energy : ℚ
deriving DecidableEq

/-! ## Annual energy (`solar/data_processing.py` and
`build/lib/solar/data_processing.py`) -/

/-- Embedding of the fiscal-window computation inside
`calculate_annual_energy`: `start = pd.Timestamp(y, 9, 1)`,
`end = start + pd.Timedelta(days=365)`, then
`try: leap_check = pd.Timestamp(y, 2, 29); if start <= leap_check <= end:
end += pd.Timedelta(days=1)` with the `ValueError` of a non-leap `y`
swallowed by `except: pass`. -/
def fiscalWindow (y : ℕ) : ℕ × ℕ :=
  let start := toDays y 9 1
  let e := start + 365
  if isLeapYear y = true ∧ start ≤ toDays y 2 29 ∧ toDays y 2 29 ≤ e
  then (start, e + 1) else (start, e)

/-- Embedding of the row mask
`(df["Date"] >= start) & (df["Date"] <= end)` for candidate year `y`. -/
def inWindow (y : ℕ) (q : ℚ) : Bool :=
  decide (((fiscalWindow y).1 : ℚ) ≤ q) && decide (q ≤ ((fiscalWindow y).2 : ℚ))

/-- First-occurrence deduplication, embedding `Series.unique()`. -/
def uniqueFirst (l : List ℕ) : List ℕ :=
  l.foldl (fun acc y => if y ∈ acc then acc else acc ++ [y]) []

/-- Embedding of `calculate_annual_energy` from
`solar/data_processing.py`: raise when no row has a valid date
(parsing/`dropna` is pandas I/O; `rows` models the parsed frame), sort
by date, then for each distinct year in order of appearance skip it if
`y > 2024`, otherwise sum `Hourly_Energy_kWh` over the inclusive fiscal
window and emit `(Year, total/1000)`. -/
def calculate_annual_energy (rows : List HourlyRec) : Except String (List (ℕ × ℚ)) :=
  if rows.isEmpty then
    Except.error "No valid dates found in Date column."
  else
    let sorted := sortBy (fun a b => decide (a.date.toQ ≤ b.date.toQ)) rows
    let years := uniqueFirst (sorted.map (fun r => r.date.year))
    let out := years.foldl (fun acc y =>
      if 2024 < y then acc
      else
        let total := ((sorted.filter (fun r => inWindow y r.date.toQ)).map
          (fun r => r.energy)).sum
        acc ++ [(y, total / 1000)]) []
    Except.ok out

/-- Embedding of `calculate_annual_energy` from
`build/lib/solar/data_processing.py`: same per-year loop without the
`y > 2024` skip and without the emptiness error, followed by the final
range filter `1980 ≤ Year ≤ 2024`. -/
def calculate_annual_energy_build (rows : List HourlyRec) : List (ℕ × ℚ) :=
  let sorted := sortBy (fun a b => decide (a.date.toQ ≤ b.date.toQ)) rows
  let years := uniqueFirst (sorted.map (fun r => r.date.year))
  let out := years.foldl (fun acc y =>
      let total := ((sorted.filter (fun r => inWindow y r.date.toQ)).map
        (fun r => r.energy)).sum
      acc ++ [(y, total / 1000)]) []
  out.filter (fun p => decide (1980 ≤ p.1) && decide (p.1 ≤ 2024))

end Solar

namespace Solar

/-! ## Theorems -/

/-- C1: for every array of simulated energy values and scalars strike,
exit, ppa, limit, `expected_loss` returns the mean over the array of
`min(clip(strike − value, 0, strike − exit) × ppa, limit)`; in
particular `expected_loss [90,105,130] 110 100 5000 50000 = 25000`. -/
theorem expected_loss_spec :
    (∀ (values : List ℚ) (strike exitv ppa limit : ℚ),
      expected_loss values strike exitv ppa limit =
        (values.map (fun v =>
          min (min (max (strike - v) 0) (strike - exitv) * ppa) limit)).sum
          / values.length) ∧
    expected_loss [90, 105, 130] 110 100 5000 50000 = 25000 := by
  constructor
  · intro values strike exitv ppa limit
    simp only [expected_loss, List.map_map, List.length_map]
    rfl
  · norm_num [expected_loss, min_def, max_def]

/-- C2 counterexample: on the constant series `[5, 5]` (sample std `0`)
the gamma estimation does not return the sentinel `(1, 1)` — there is no
fallback branch in `calculate_gamma_parameters`; numpy returns
`(inf, 0.0)` there, and the rational embedding returns `(0, 0)`. -/
theorem gamma_params_no_sentinel :
    calculate_gamma_parameters [5, 5] ≠ (1, 1) := by
  norm_num [calculate_gamma_parameters, npMean, sampleVar]

/-- C2 amended: gamma estimation always returns the unguarded
method-of-moments pair shape `(mean/std)²`, scale `std²/mean` with
Bessel-corrected std: whenever the sample variance and mean are nonzero
the returned `(shape, scale)` satisfy `shape·scale = mean` and
`shape·scale² = variance`; a zero-variance or zero-mean series gets no
sentinel (the divisions by zero yield non-finite values in numpy). -/
theorem gamma_params_moments (values : List ℚ)
    (hv : sampleVar values ≠ 0) (hm : npMean values ≠ 0) :
    (calculate_gamma_parameters values).1 * (calculate_gamma_parameters values).2
        = npMean values ∧
    (calculate_gamma_parameters values).1 * (calculate_gamma_parameters values).2 ^ 2
        = sampleVar values := by
  unfold calculate_gamma_parameters
  constructor
  · field_simp
    ring
  · field_simp
    ring

/-- Witness for the amended C2 theorem at the series `[1, 3]`
(mean 2, Bessel variance 2, hence shape 2 and scale 1). -/
theorem gamma_params_moments_witness :
    sampleVar [1, 3] ≠ 0 ∧ npMean [1, 3] ≠ 0 ∧
    ((calculate_gamma_parameters [1, 3]).1 * (calculate_gamma_parameters [1, 3]).2
        = npMean [1, 3] ∧
     (calculate_gamma_parameters [1, 3]).1 * (calculate_gamma_parameters [1, 3]).2 ^ 2
        = sampleVar [1, 3]) :=
  ⟨by norm_num [sampleVar, npMean], by norm_num [npMean],
   gamma_params_moments [1, 3] (by norm_num [sampleVar, npMean]) (by norm_num [npMean])⟩

/-- C9: for every non-empty value sequence and probabilities, the
Excel-style percentile function agrees with the spec's nearest-rank
description (rank `⌈p·n⌉` clamped to `[1, n]`, rank-th smallest, no
linear interpolation); in particular
`excel_style_percentiles [10,20,30,40,50] [0.01, 0.5, 1.0] = [10, 30, 50]`. -/
theorem excel_style_percentiles_spec :
    (∀ (values percentiles : List ℚ), values ≠ [] →
      excel_style_percentiles values percentiles
        = excel_percentile_spec values percentiles) ∧
    excel_style_percentiles [10, 20, 30, 40, 50] [1/100, 1/2, 1] = [10, 30, 50] := by
  constructor
  · intro values percentiles _
    rfl
  · have c1 : ⌈(1:ℚ)/20⌉ = (1:ℤ) := by rw [Int.ceil_eq_iff]; norm_num
    have c2 : ⌈(5:ℚ)/2⌉ = (3:ℤ) := by rw [Int.ceil_eq_iff]; norm_num
    norm_num [excel_style_percentiles, npSort, sortBy, insertBy, min_def, max_def, c1, c2]
    decide

/-- Witness for the C9 theorem: the nonemptiness hypothesis of the
refinement conjunct discharged on the concrete example list. -/
theorem excel_style_percentiles_spec_witness :
    ([10, 20, 30, 40, 50] : List ℚ) ≠ [] ∧
    excel_style_percentiles [10, 20, 30, 40, 50] [1/100, 1/2, 1]
      = excel_percentile_spec [10, 20, 30, 40, 50] [1/100, 1/2, 1] :=
  ⟨by decide, excel_style_percentiles_spec.1 [10, 20, 30, 40, 50] [1/100, 1/2, 1] (by decide)⟩

/-- C7: for every exponential function in place of `np.exp`, every value
sequence, pivot, factor and shift, the blow transform with direction
`'D'` (down) replaces each value < pivot by
`pivot − (pivot − value)·exp(−factor/100)`, leaves values ≥ pivot
unchanged, and then adds `shift` to every output element; in particular
`blow [90,100,110] 100 (-30) 'D' 0 = [100 − 10·exp(3/10), 100, 110]`
(numerically ≈ [86.51, 100, 110]). -/
theorem apply_exponential_blow_down_spec (expf : ℚ → ℚ) :
    (∀ (values : List ℚ) (blow_point blow_factor shift : ℚ),
      apply_exponential_blow expf values blow_point blow_factor "D" shift
        = values.map (fun v =>
            (if v < blow_point
             then blow_point - (blow_point - v) * expf (-blow_factor / 100)
             else v) + shift)) ∧
    apply_exponential_blow expf [90, 100, 110] 100 (-30) "D" 0
      = [100 - 10 * expf (3/10), 100, 110] := by
  constructor
  · intro values blow_point blow_factor shift
    simp [apply_exponential_blow, List.map_map]
  · simp [apply_exponential_blow]
    norm_num

/-- C10: calling the blow transform with any direction string other
than `'D'` or `'U'` — including the spelled-out names `"down"` and
`"up"` — applies no compression at all: every input value is returned
unchanged plus `shift`, and no error is raised (the function is total). -/
theorem apply_exponential_blow_other_dir (expf : ℚ → ℚ) (values : List ℚ)
    (blow_point blow_factor shift : ℚ) (blow_dir : String)
    (hD : blow_dir ≠ "D") (hU : blow_dir ≠ "U") :
    apply_exponential_blow expf values blow_point blow_factor blow_dir shift
      = values.map (fun v => v + shift) := by
  simp [apply_exponential_blow, hD, hU]

/-- Witness for C10 at the spelled-out direction string `"down"`. -/
theorem apply_exponential_blow_other_dir_witness :
    ("down" ≠ "D" ∧ "down" ≠ "U") ∧
    apply_exponential_blow (fun q => q) [1, 2] 3 4 "down" 5 = [6, 7] :=
  ⟨⟨by decide, by decide⟩, by
    rw [apply_exponential_blow_other_dir (fun q => q) [1, 2] 3 4 5 "down"
      (by decide) (by decide)]
    norm_num⟩

/-- C8: the simulation driver raises its input-validation error exactly
when some quasi-random value lies outside `[0, 1]`; the error is raised
before any value is mapped through the inverse gamma CDF (the result on
invalid input is the same for every `ppf`); and valid input is mapped
through `ppf` untouched — never clamped or partially processed. -/
theorem sobol_sim_validation (ppf : ℚ → ℚ → ℚ → ℚ) (shape scale : ℚ)
    (nums : List ℚ) :
    ((∃ x ∈ nums, x < 0 ∨ 1 < x) ↔
      sobol_sim ppf shape scale nums
        = Except.error "Sobol CSV must contain values between 0 and 1.") ∧
    ((∀ x ∈ nums, 0 ≤ x ∧ x ≤ 1) →
      sobol_sim ppf shape scale nums = Except.ok (nums.map (ppf shape scale))) ∧
    (∀ ppf2 : ℚ → ℚ → ℚ → ℚ, (∃ x ∈ nums, x < 0 ∨ 1 < x) →
      sobol_sim ppf shape scale nums = sobol_sim ppf2 shape scale nums) := by
  have hiff : (∃ x ∈ nums, x < 0 ∨ 1 < x) ↔
      ¬ (nums.all (fun x => decide (0 ≤ x) && decide (x ≤ 1)) = true) := by
    constructor
    · rintro ⟨x, hx, h⟩ hall
      rw [List.all_eq_true] at hall
      have hb := hall x hx
      simp only [Bool.and_eq_true, decide_eq_true_eq] at hb
      rcases h with h | h
      · exact absurd hb.1 (not_le.mpr h)
      · exact absurd hb.2 (not_le.mpr h)
    · intro h
      by_contra hno
      push_neg at hno
      apply h
      rw [List.all_eq_true]
      intro x hx
      simp only [Bool.and_eq_true, decide_eq_true_eq]
      exact hno x hx
  by_cases hall : nums.all (fun x => decide (0 ≤ x) && decide (x ≤ 1)) = true
  · refine ⟨?_, ?_, ?_⟩
    · simp [sobol_sim, hall, hiff]
    · intro _
      simp [sobol_sim, hall]
    · intro ppf2 hbad
      exact absurd hall (hiff.mp hbad)
  · refine ⟨?_, ?_, ?_⟩
    · simp [sobol_sim, hall, hiff]
    · intro hok
      exact absurd (by simpa [List.all_eq_true] using hok) hall
    · intro ppf2 _
      simp [sobol_sim, hall]

/-! ### Calendar helper lemmas -/

/-- One calendar year adds 366 days when leap, 365 otherwise. -/
lemma daysSinceYear0_succ (y : ℕ) :
    daysSinceYear0 (y + 1) = daysSinceYear0 y + (if isLeapYear y = true then 366 else 365) := by
  by_cases h : isLeapYear y = true
  · rw [if_pos h]
    simp only [isLeapYear, Bool.or_eq_true, Bool.and_eq_true, beq_iff_eq, bne_iff_ne, ne_eq] at h
    simp only [daysSinceYear0]
    omega
  · rw [if_neg h]
    simp only [isLeapYear, Bool.or_eq_true, Bool.and_eq_true, beq_iff_eq, bne_iff_ne, ne_eq] at h
    push_neg at h
    simp only [daysSinceYear0]
    omega

/-- Day count of September 1 grows by 365 per year, plus 1 when the new
window year is leap (its Feb 29 lies between the two September firsts). -/
lemma sep1_gap (y : ℕ) :
    toDays (y + 1) 9 1
      = toDays y 9 1 + 365 + (if isLeapYear (y + 1) = true then 1 else 0) := by
  have h9 : ∀ z, daysBeforeMonth z 9 = 215 + (if isLeapYear z = true then 29 else 28) :=
    fun z => rfl
  simp only [toDays, daysSinceYear0_succ, h9]
  by_cases h1 : isLeapYear y = true <;> by_cases h2 : isLeapYear (y + 1) = true <;>
    simp [h1, h2]

/-- September 1 day counts grow by at least 365 per elapsed year. -/
lemma sep1_le (y k : ℕ) : toDays y 9 1 + 365 * k ≤ toDays (y + k) 9 1 := by
  induction k with
  | zero => simp
  | succ n ih =>
    have hg := sep1_gap (y + n)
    have : y + (n + 1) = (y + n) + 1 := by omega
    rw [this, hg]
    by_cases h : isLeapYear (y + n + 1) = true <;> simp [h] <;> omega

/-- The fiscal window starts at September 1 of the candidate year. -/
lemma fiscalWindow_fst (y : ℕ) : (fiscalWindow y).1 = toDays y 9 1 := by
  simp only [fiscalWindow]
  split <;> rfl

/-- The leap-extension branch of `fiscalWindow` is dead code: Feb 29 of
the candidate year precedes its own September 1, so the window end is
always `start + 365`. -/
lemma fiscalWindow_snd (y : ℕ) : (fiscalWindow y).2 = toDays y 9 1 + 365 := by
  have hnot : ¬ (isLeapYear y = true ∧ toDays y 9 1 ≤ toDays y 2 29 ∧
      toDays y 2 29 ≤ toDays y 9 1 + 365) := by
    rintro ⟨hleap, hle, -⟩
    have h2 : toDays y 2 29 = daysSinceYear0 y + 59 := by
      have hm : daysBeforeMonth y 2 = 31 := rfl
      simp only [toDays, hm]
    have h9 : toDays y 9 1 = daysSinceYear0 y + 244 := by
      have hm : daysBeforeMonth y 9 = 215 + (if isLeapYear y = true then 29 else 28) := rfl
      simp only [toDays, hm, if_pos hleap]
    omega
  simp only [fiscalWindow, if_neg hnot]

/-- C4 counterexample: the year-2000 fiscal window spans 365 days, not
the 366 the claim requires (the leap check compares Feb 29 2000, which
precedes the window start Sep 1 2000, so no extension happens). -/
theorem fiscal_window_2000_not_366 :
    (fiscalWindow 2000).2 - (fiscalWindow 2000).1 = 365 ∧
    ¬ ((fiscalWindow 2000).2 - (fiscalWindow 2000).1 = 366) := by
  decide

/-- C4 amended: the leap check inside `calculate_annual_energy`
compares Feb 29 of the candidate year itself, which always precedes the
September 1 window start, so no window is ever extended: for every
candidate year the window end equals start + 365 days (and the check
never raises for a non-leap candidate year — the `ValueError` is caught
and treated as no extension, which the totality of `fiscalWindow`
models). -/
theorem fiscal_window_never_extended (y : ℕ) :
    (fiscalWindow y).2 = (fiscalWindow y).1 + 365 := by
  rw [fiscalWindow_snd, fiscalWindow_fst]

/-- Comparison of two natural-number day counts casted to ℚ reduces to
the natural-number comparison. -/
lemma decide_castQ_le (a b : ℕ) : decide ((a : ℚ) ≤ (b : ℚ)) = decide (a ≤ b) := by
  rw [decide_eq_decide]
  exact Nat.cast_le

/-- Evaluation of `calculate_annual_energy` on a single October 1975
record: the year 1975 passes the only filter (`y > 2024`) and is
emitted. -/
lemma annual_energy_1975_eval :
    calculate_annual_energy [⟨⟨1975, 10, 1, 0⟩, 1000⟩] = Except.ok [(1975, 1)] := by
  have htd : toDays 1975 10 1 = 721627 := by decide
  have hfw : fiscalWindow 1975 = (721597, 721962) := by decide
  norm_num [calculate_annual_energy, sortBy, insertBy, uniqueFirst, inWindow,
    Timestamp.toQ, htd, hfw]

/-- C3 counterexample: an input whose only record is dated October 1,
1975 produces an output row with `Year = 1975 < 1980` — the current
`calculate_annual_energy` only skips years above 2024 and has no lower
bound. -/
theorem annual_energy_emits_1975 :
    calculate_annual_energy [⟨⟨1975, 10, 1, 0⟩, 1000⟩] = Except.ok [(1975, 1)] ∧
    1975 < 1980 :=
  ⟨annual_energy_1975_eval, by decide⟩

/-- Elements added by the year fold of `calculate_annual_energy` all
carry a year that survived the `y > 2024` skip. -/
lemma foldl_skip2024_year_le (g : ℕ → ℚ) (years : List ℕ) :
    ∀ (acc : List (ℕ × ℚ)), (∀ p ∈ acc, p.1 ≤ 2024) →
      ∀ p ∈ years.foldl
        (fun acc2 y => if 2024 < y then acc2 else acc2 ++ [(y, g y)]) acc,
        p.1 ≤ 2024 := by
  induction years with
  | nil =>
    intro acc hacc p hp
    exact hacc p hp
  | cons y ys ih =>
    intro acc hacc p hp
    simp only [List.foldl_cons] at hp
    by_cases hy : 2024 < y
    · rw [if_pos hy] at hp
      exact ih acc hacc p hp
    · rw [if_neg hy] at hp
      refine ih _ ?_ p hp
      intro q hq
      rcases List.mem_append.mp hq with h | h
      · exact hacc q h
      · simp only [List.mem_singleton] at h
        subst h
        omega

/-- C3 amended: the current `calculate_annual_energy` guarantees only
the upper bound — no output row has `Year > 2024` — while years below
1980 can appear; the older `build/lib` variant additionally applies the
final range filter, so its output years lie in `[1980, 2024]`. -/
theorem annual_energy_year_bounds (rows : List HourlyRec) :
    (∀ out, calculate_annual_energy rows = Except.ok out →
      ∀ p ∈ out, p.1 ≤ 2024) ∧
    (∀ p ∈ calculate_annual_energy_build rows, 1980 ≤ p.1 ∧ p.1 ≤ 2024) := by
  constructor
  · intro out hout p hp
    unfold calculate_annual_energy at hout
    by_cases hemp : rows.isEmpty = true
    · rw [if_pos hemp] at hout
      exact absurd hout (by simp)
    · rw [if_neg hemp] at hout
      rw [Except.ok.injEq] at hout
      subst hout
      exact foldl_skip2024_year_le _ _ [] (by simp) p hp
  · intro p hp
    unfold calculate_annual_energy_build at hp
    have h := (List.mem_filter.mp hp).2
    simp only [Bool.and_eq_true, decide_eq_true_eq] at h
    exact h

/-- Witness for the amended C3 theorem on the concrete 1975 input: its
single output row has year at most 2024, and the build-variant filter
holds vacuously on the row it keeps. -/
theorem annual_energy_year_bounds_witness :
    ((1975, 1) : ℕ × ℚ).1 ≤ 2024 :=
  (annual_energy_year_bounds [⟨⟨1975, 10, 1, 0⟩, 1000⟩]).1 [(1975, 1)]
    annual_energy_1975_eval (1975, 1) (List.mem_singleton.mpr rfl)

/-- Evaluation facts at the shared boundary: midnight September 1 2001
lies inside both the year-2000 window (whose inclusive end is day
731094 = Sep 1 2001) and the year-2001 window (whose start is the same
day). -/
lemma boundary_in_both_windows :
    inWindow 2000 ((731094 : ℕ) : ℚ) = true ∧
    inWindow 2001 ((731094 : ℕ) : ℚ) = true := by
  have hfw2000 : fiscalWindow 2000 = (730729, 731094) := by decide
  have hfw2001 : fiscalWindow 2001 = (731094, 731459) := by decide
  constructor <;> norm_num [inWindow, hfw2000, hfw2001]

/-- Evaluation of `calculate_annual_energy` on three 100-kWh records:
the record at midnight Sep 1 2001 is summed into both the year-2000 and
the year-2001 aggregate, so each aggregate is 200 kWh = 0.2 MWh and the
300 kWh of input are reported as 400 kWh in total. -/
lemma annual_energy_boundary_eval :
    calculate_annual_energy
        [⟨⟨2000, 10, 1, 0⟩, 100⟩, ⟨⟨2001, 9, 1, 0⟩, 100⟩, ⟨⟨2001, 10, 1, 0⟩, 100⟩]
      = Except.ok [(2000, 1/5), (2001, 1/5)] := by
  have htd1 : toDays 2000 10 1 = 730759 := by decide
  have htd2 : toDays 2001 9 1 = 731094 := by decide
  have htd3 : toDays 2001 10 1 = 731124 := by decide
  have hfw2000 : fiscalWindow 2000 = (730729, 731094) := by decide
  have hfw2001 : fiscalWindow 2001 = (731094, 731459) := by decide
  norm_num [calculate_annual_energy, sortBy, insertBy, uniqueFirst, inWindow,
    Timestamp.toQ, htd1, htd2, htd3, hfw2000, hfw2001]

/-- C5 counterexample: the fiscal windows of the retained years 2000
and 2001 both contain the timestamp midnight September 1 2001 (day
731094), and on a concrete three-record input that timestamp's energy
is summed into both years' aggregates (each aggregate 200 kWh even
though the shared record is the only overlap). -/
theorem annual_windows_not_disjoint :
    (inWindow 2000 ((731094 : ℕ) : ℚ) = true ∧
     inWindow 2001 ((731094 : ℕ) : ℚ) = true) ∧
    calculate_annual_energy
        [⟨⟨2000, 10, 1, 0⟩, 100⟩, ⟨⟨2001, 9, 1, 0⟩, 100⟩, ⟨⟨2001, 10, 1, 0⟩, 100⟩]
      = Except.ok [(2000, 1/5), (2001, 1/5)] :=
  ⟨boundary_in_both_windows, annual_energy_boundary_eval⟩

/-- C5 amended: two fiscal windows of distinct candidate years overlap
only at a single boundary instant: if a timestamp value lies in both
windows then the years are consecutive, the later year is not a leap
year, and the timestamp is exactly midnight September 1 of the later
year (the later window's start, which the earlier window includes
because its mask is inclusive of `start + 365 days`). -/
theorem windows_overlap_only_boundary (y1 y2 : ℕ) (q : ℚ)
    (hlt : y1 < y2) (h1 : inWindow y1 q = true) (h2 : inWindow y2 q = true) :
    y2 = y1 + 1 ∧ isLeapYear y2 = false ∧ q = (((fiscalWindow y2).1 : ℕ) : ℚ) := by
  simp only [inWindow, Bool.and_eq_true, decide_eq_true_eq] at h1 h2
  rw [fiscalWindow_fst, fiscalWindow_snd] at h1 h2
  have hq1 : (toDays y2 9 1 : ℚ) ≤ ((toDays y1 9 1 + 365 : ℕ) : ℚ) := le_trans h2.1 h1.2
  have hn : toDays y2 9 1 ≤ toDays y1 9 1 + 365 := by exact_mod_cast hq1
  have hmono := sep1_le y1 (y2 - y1)
  rw [show y1 + (y2 - y1) = y2 from by omega] at hmono
  have hk : y2 - y1 = 1 := by
    by_contra hne
    have h2k : 2 ≤ y2 - y1 := by omega
    have : toDays y1 9 1 + 730 ≤ toDays y2 9 1 := by
      calc toDays y1 9 1 + 730 ≤ toDays y1 9 1 + 365 * (y2 - y1) := by omega
        _ ≤ toDays y2 9 1 := hmono
    omega
  have hy2 : y2 = y1 + 1 := by omega
  have hgap := sep1_gap y1
  rw [← hy2] at hgap
  have hleap : isLeapYear y2 = false := by
    by_contra hlf
    have hlt2 : isLeapYear y2 = true := by
      cases hb : isLeapYear y2
      · exact absurd hb hlf
      · rfl
    rw [if_pos hlt2] at hgap
    omega
  rw [if_neg (by rw [hleap]; exact Bool.false_ne_true)] at hgap
  refine ⟨hy2, hleap, ?_⟩
  have hEq : ((toDays y1 9 1 + 365 : ℕ) : ℚ) = ((toDays y2 9 1 : ℕ) : ℚ) := by
    rw [hgap]
  have hle2 : q ≤ ((toDays y2 9 1 : ℕ) : ℚ) := hEq ▸ h1.2
  rw [fiscalWindow_fst]
  exact le_antisymm hle2 h2.1

/-- Last element of a `zipWith` over equal-length lists combines the
last elements. -/
lemma getLast?_zipWith {α β γ : Type} (f : α → β → γ) (as : List α) (bs : List β)
    (h : as.length = bs.length) :
    (List.zipWith f as bs).getLast? =
      match as.getLast?, bs.getLast? with
      | some a, some b => some (f a b)
      | _, _ => none := by
  rw [List.getLast?_eq_head?_reverse, List.reverse_zipWith h, List.head?_zipWith]
  simp only [List.head?_reverse]
  rfl

/-- C6: for both detrending strategies (with `np.exp` abstracted as an
arbitrary function, so in particular for the Gaussian kernel), on
equal-length non-empty inputs with positive bandwidth, the last element
of the detrended series equals the last input value exactly — the
anchor construction cancels the last residual, so the invariant holds
with exact rational equality (hence within any floating tolerance). -/
theorem detrend_anchored (expf : ℚ → ℚ) (x y : List ℚ) (bw : ℚ)
    (hlen : x.length = y.length) (hne : y ≠ []) (_hbw : 0 < bw) :
    (gaussian_detrend expf x y bw).2.getLast? = y.getLast? ∧
    (linear_detrend x y).getLast? = y.getLast? := by
  have hxne : x ≠ [] := by
    intro h0
    apply hne
    rw [h0] at hlen
    exact List.length_eq_zero.mp hlen.symm
  obtain ⟨yl, hyl⟩ : ∃ v, y.getLast? = some v := by
    cases hy : y.getLast? with
    | none => exact absurd (List.getLast?_eq_none_iff.mp hy) hne
    | some v => exact ⟨v, rfl⟩
  constructor
  · have hsm : (x.map (smoothedAt expf bw x y)).length = y.length := by
      rw [List.length_map]; exact hlen
    have hsne : x.map (smoothedAt expf bw x y) ≠ [] := by
      simp [hxne]
    obtain ⟨sl, hsl⟩ : ∃ v, (x.map (smoothedAt expf bw x y)).getLast? = some v := by
      cases hs : (x.map (smoothedAt expf bw x y)).getLast? with
      | none => exact absurd (List.getLast?_eq_none_iff.mp hs) hsne
      | some v => exact ⟨v, rfl⟩
    simp only [gaussian_detrend, List.isEmpty_eq_false.mpr hxne,
      List.isEmpty_eq_false.mpr hne, Bool.or_self, Bool.false_eq_true, if_false]
    rw [getLast?_zipWith _ y _ hsm.symm, hyl, hsl]
    simp only [hsl, Option.getD_some, hyl]
    congr 1
    ring
  · obtain ⟨xl, hxl⟩ : ∃ v, x.getLast? = some v := by
      cases hx : x.getLast? with
      | none => exact absurd (List.getLast?_eq_none_iff.mp hx) hxne
      | some v => exact ⟨v, rfl⟩
    simp only [linear_detrend, List.isEmpty_eq_false.mpr hxne,
      List.isEmpty_eq_false.mpr hne, Bool.or_self, Bool.false_eq_true, if_false]
    rw [getLast?_zipWith _ x y hlen, hxl, hyl]
    simp only [hxl, Option.getD_some, hyl]
    congr 1
    ring

/-- Witness for C6 at `expf = id`, `x = [1, 2]`, `y = [3, 4]`,
`bw = 1`. -/
theorem detrend_anchored_witness :
    (([1, 2] : List ℚ).length = ([3, 4] : List ℚ).length ∧
      ([3, 4] : List ℚ) ≠ [] ∧ (0 : ℚ) < 1) ∧
    ((gaussian_detrend (fun q => q) [1, 2] [3, 4] 1).2.getLast?
        = ([3, 4] : List ℚ).getLast? ∧
     (linear_detrend [1, 2] [3, 4]).getLast? = ([3, 4] : List ℚ).getLast?) :=
  ⟨⟨by decide, by decide, by norm_num⟩,
   detrend_anchored (fun q => q) [1, 2] [3, 4] 1 (by decide) (by decide) (by norm_num)⟩

/-- Witness for the amended C5 theorem at years 2000 and 2001 and the
boundary timestamp, with both window-membership hypotheses discharged
concretely. -/
theorem windows_overlap_only_boundary_witness :
    2000 < 2001 ∧
    (2001 = 2000 + 1 ∧ isLeapYear 2001 = false ∧
      ((731094 : ℕ) : ℚ) = (((fiscalWindow 2001).1 : ℕ) : ℚ)) :=
  ⟨by decide,
   windows_overlap_only_boundary 2000 2001 ((731094 : ℕ) : ℚ) (by decide)
     boundary_in_both_windows.1 boundary_in_both_windows.2⟩

/-- Witness for C8: a sequence containing `1.5` is rejected with the
input-validation error, and the valid sequence `[1/2]` is mapped through
the supplied inverse CDF untouched. -/
theorem sobol_sim_validation_witness :
    sobol_sim (fun _ _ x => x) 1 1 [1/2, 3/2]
      = Except.error "Sobol CSV must contain values between 0 and 1." ∧
    sobol_sim (fun _ _ x => x) 1 1 [1/2] = Except.ok [1/2] :=
  ⟨(sobol_sim_validation (fun _ _ x => x) 1 1 [1/2, 3/2]).1.mp
      ⟨3/2, by norm_num, Or.inr (by norm_num)⟩,
   by
    have h := (sobol_sim_validation (fun _ _ x => x) 1 1 [1/2]).2.1
      (by intro x hx; constructor <;> (simp at hx; subst hx; norm_num))
    simpa using h⟩

end Solar
